import Mathlib

/-!
# Verification of the OllamaGui streaming core

A shallow embedding, in Lean 4, of the streaming / event-delivery core of the
`ollama-chatbot` application, together with theorems about its behaviour.

The embedding follows the Python source:

* `workers/ollama_worker.py` — `OllamaWorker` (chat generation, streaming
  NDJSON decode loop, cooperative stop flag) and `ModelDownloadWorker`
  (model pull with percentage progress).
* `gui/main_window.py` — the observer side: `update_response` (token
  accumulator and chat-bubble replacement), `finish_response`,
  `handle_error`, `send_message` (worker construction from settings),
  `save_sessions` / `load_saved_sessions` (JSON persistence).
* `gui/dialogs.py` — `SettingsDialog.save_settings` and its sliders.

Conventions of the embedding:

* A streamed HTTP body (`response.iter_lines()`) is a finite list of lines.
  Each line is either blank (skipped by `if line:`), a JSON record already
  parsed into its relevant fields, or a fault: a point at which iterating /
  `json.loads` raises a Python exception.  Claims about well-formed streams
  take a fault-free hypothesis.
* Python exceptions are values of `Exn`, carrying the exception class
  (`ExnKind`) and its `str(e)` message; `error.emit(str(e))` is modelled as
  an event carrying the exception.
* The cooperative stop flag `is_running` is set to `False` by `stop()`.
  A run is parametrised by the list of loop indices at which a `stop()`
  call has taken effect: the flag reads `False` at the check before line
  `i` iff some effective stop happened at or before that check
  (`isRunningAt`).  Two `stop()` calls are two entries in the list.
* Python float arithmetic on download percentages is modelled by exact
  rational arithmetic (`ℚ`); every value the theorems touch is exactly
  representable, where the two agree.
-/

/-! ## Generation worker (`OllamaWorker`) -/

/-- Kinds of Python exceptions relevant to the worker's `try`/`except`. -/
inductive ExnKind where
  | connectionRefused   -- `requests.exceptions.ConnectionError`, refused connect
  | transport           -- any other transport fault mid-stream
  | jsonDecode          -- `json.JSONDecodeError` from `json.loads`
  deriving DecidableEq, Repr

/-- A Python exception: its class together with `str(e)`. -/
structure Exn where
  kind : ExnKind
  msg : String
  deriving DecidableEq, Repr

/-- One raw line of the streamed NDJSON body, as the worker's loop sees it:
blank (falsy, skipped), a parsed generation record (optional `response`
string field, `done` flag read via `data.get("done", False)`), or a fault —
the point where iterating the stream or `json.loads` raises. -/
inductive Line where
  | blank
  | record (response : Option String) (done : Bool)
  | fault (e : Exn)
  deriving DecidableEq, Repr

/-- Events emitted by `OllamaWorker`'s Qt signals: `token_received`,
`finished`, `error`.  (`error` carries the exception whose `str` is
emitted.)  The worker class defines no other signal — in particular there is
no cancelled signal. -/
inductive GenEvent where
  | token (s : String)
  | finished
  | error (e : Exn)
  deriving DecidableEq, Repr

/-- The value the `is_running` flag reads at the check preceding loop
iteration `i`, given the loop indices `stops` at which `stop()` calls have
taken effect: `True` iff no stop has landed at or before this check. -/
def isRunningAt (stops : List Nat) (i : Nat) : Bool :=
  stops.all (fun k => i < k)

/-- `[s]` when the parsed record has a `response` field, else `[]`. -/
def respTokens (response : Option String) : List String :=
  match response with
  | some s => [s]
  | none => []

/-- The body of `OllamaWorker.run`'s `for line in response.iter_lines()`
loop, from the check of `self.is_running` at iteration `i` onward, returning
the events emitted from that point to the end of the method (the
`self.finished.emit()` after the loop included; an uncaught exception inside
the loop skips it and the `except` arm emits `error` instead). -/
def processLines (stops : List Nat) : List Line → Nat → List GenEvent
  | [], _ => [GenEvent.finished]
  | l :: rest, i =>
    if isRunningAt stops i then
      match l with
      | Line.blank => processLines stops rest (i + 1)
      | Line.fault e => [GenEvent.error e]
      | Line.record response dn =>
          (respTokens response).map GenEvent.token ++
            (if dn then [GenEvent.finished] else processLines stops rest (i + 1))
    else
      [GenEvent.finished]

/-- The token texts a fault-free stream yields, in line order: one per line
with a `response` field, skipping blanks, stopping after the first record
whose `done` is true. -/
def genTokens : List Line → List String
  | [] => []
  | Line.blank :: rest => genTokens rest
  | Line.fault _ :: _ => []
  | Line.record response dn :: rest =>
      respTokens response ++ (if dn then [] else genTokens rest)

/-- `true` iff no line of the stream is a fault (well-formed NDJSON). -/
def linesOk (lines : List Line) : Bool :=
  lines.all (fun l => match l with | Line.fault _ => false | _ => true)

/-- The generation options sub-object of the request body. -/
structure GenOptions where
  temperature : ℚ
  num_predict : Int
  deriving DecidableEq, Repr

/-- The JSON body `OllamaWorker.run` posts to `/api/generate`.  The Python
dict is built with keys `model`, `prompt`, `stream`, `options`, and the key
`system` is added afterwards only under `if self.system_prompt:`; `system =
none` models the key being absent. -/
structure GenPayload where
  model : String
  prompt : String
  stream : Bool
  options : GenOptions
  system : Option String
  deriving DecidableEq, Repr

/-- The set of keys present in the posted JSON body, in insertion order. -/
def GenPayload.keys (p : GenPayload) : List String :=
  ["model", "prompt", "stream", "options"] ++
    (match p.system with | some _ => ["system"] | none => [])

/-- State of an `OllamaWorker` instance as built by `__init__`. -/
structure OllamaWorker where
  model : String
  prompt : String
  system_prompt : String
  temp : ℚ
  max_tokens : Int
  is_running : Bool
  deriving DecidableEq, Repr

/-- `OllamaWorker.__init__(model, prompt, system_prompt, temp, max_tokens)`
with its `self.is_running = True`. -/
def OllamaWorker.init (model prompt system_prompt : String) (temp : ℚ)
    (max_tokens : Int) : OllamaWorker :=
  { model := model, prompt := prompt, system_prompt := system_prompt,
    temp := temp, max_tokens := max_tokens, is_running := true }

/-- The payload built at the top of `OllamaWorker.run`: four keys, then
`payload["system"] = self.system_prompt` only when the string is truthy
(non-empty). -/
def OllamaWorker.payload (w : OllamaWorker) : GenPayload :=
  { model := w.model, prompt := w.prompt, stream := true,
    options := { temperature := w.temp, num_predict := w.max_tokens },
    system := if w.system_prompt = "" then none else some w.system_prompt }

/-- Result of `requests.post(url, json=payload, stream=True)`: either a
streamed body (a list of lines) or a raised exception. -/
inductive ConnResult where
  | ok (lines : List Line)
  | raised (e : Exn)
  deriving DecidableEq, Repr

/-- `OllamaWorker.run`, as a function of the transport's behaviour `conn`
and of the stop schedule: the requests issued (always exactly the one
payload) paired with the emitted event sequence. -/
def OllamaWorker.run (w : OllamaWorker) (conn : ConnResult) (stops : List Nat) :
    List GenPayload × List GenEvent :=
  ([w.payload],
    match conn with
    | ConnResult.raised e => [GenEvent.error e]
    | ConnResult.ok lines => processLines stops lines 0)

/-- `OllamaWorker.stop`: sets `self.is_running = False` and returns. -/
def OllamaWorker.stop (w : OllamaWorker) : OllamaWorker :=
  { w with is_running := false }

example : processLines [] [Line.record (some "Hel") false,
    Line.record (some "lo") false, Line.record none true] 0 =
    [GenEvent.token "Hel", GenEvent.token "lo", GenEvent.finished] := by decide

example : processLines [1] [Line.record (some "a") false,
    Line.record (some "b") false, Line.record none true] 0 =
    [GenEvent.token "a", GenEvent.finished] := by decide

/-! ## Download worker (`ModelDownloadWorker`) -/

/-- The fields of a parsed line of the `/api/pull` stream that the loop
reads: `data.get("status", "")` and the (numeric, byte-count) fields
`total` and `completed` whose joint presence is tested with
`"total" in data and "completed" in data`. -/
structure DlRecord where
  status : Option String
  total : Option Int
  completed : Option Int
  deriving DecidableEq, Repr

/-- One raw line of the pull stream: blank, a parsed record, or a fault. -/
inductive DlLine where
  | blank
  | record (d : DlRecord)
  | fault (e : Exn)
  deriving DecidableEq, Repr

/-- Events emitted by `ModelDownloadWorker`'s signals `progress` (a single
formatted string), `finished`, `error`. -/
inductive DlEvent where
  | progress (msg : String)
  | finished
  | error (e : Exn)
  deriving DecidableEq, Repr

/-- Python's `f"{x:.1f}"` on the (exactly representable) values the worker
formats: the number rounded to one decimal place.  Agrees with CPython on
every value whose tenfold is an integer — which covers every use in the
theorems below — where no binary-float tie-breaking is involved. -/
def fmt1 (q : ℚ) : String :=
  let n : Int := round (q * 10)
  let sgn := if n < 0 then "-" else ""
  let m := n.natAbs
  sgn ++ toString (m / 10) ++ "." ++ toString (m % 10)

/-- `percent = (completed / total * 100) if total > 0 else 0` (true float
division, modelled exactly over `ℚ`). -/
def dlPercent (total completed : Int) : ℚ :=
  if total > 0 then (completed : ℚ) / (total : ℚ) * 100 else 0

/-- The string the loop body emits for one parsed record: when both `total`
and `completed` are present, `f"{status}: {percent:.1f}%"`; otherwise just
`status`. -/
def dlRecordMsg (d : DlRecord) : String :=
  let status := d.status.getD ""
  match d.total, d.completed with
  | some t, some c => status ++ ": " ++ fmt1 (dlPercent t c) ++ "%"
  | _, _ => status

/-- The `for line in response.iter_lines()` loop of
`ModelDownloadWorker.run` from the `is_running` check at iteration `i`
onward (note: unlike the generation loop, it has no `done` break — it
consumes the stream to its end, then emits `finished`). -/
def dlProcessLines (stops : List Nat) : List DlLine → Nat → List DlEvent
  | [], _ => [DlEvent.finished]
  | l :: rest, i =>
    if isRunningAt stops i then
      match l with
      | DlLine.blank => dlProcessLines stops rest (i + 1)
      | DlLine.fault e => [DlEvent.error e]
      | DlLine.record d =>
          DlEvent.progress (dlRecordMsg d) :: dlProcessLines stops rest (i + 1)
    else
      [DlEvent.finished]

/-- The JSON body `ModelDownloadWorker.run` posts to `/api/pull`:
`{"name": self.model_name, "stream": True}`. -/
structure DlPayload where
  name : String
  stream : Bool
  deriving DecidableEq, Repr

/-- State of a `ModelDownloadWorker` instance. -/
structure ModelDownloadWorker where
  model_name : String
  is_running : Bool
  deriving DecidableEq, Repr

/-- `ModelDownloadWorker.__init__(model_name)`. -/
def ModelDownloadWorker.init (model_name : String) : ModelDownloadWorker :=
  { model_name := model_name, is_running := true }

/-- The transport's behaviour for a pull request. -/
inductive DlConnResult where
  | ok (lines : List DlLine)
  | raised (e : Exn)
  deriving DecidableEq, Repr

/-- `ModelDownloadWorker.run` as a function of the transport's behaviour
and the stop schedule: the requests issued (unconditionally exactly one —
the method performs no validation of `model_name` before posting) paired
with the emitted events. -/
def ModelDownloadWorker.run (w : ModelDownloadWorker) (conn : DlConnResult)
    (stops : List Nat) : List DlPayload × List DlEvent :=
  ([{ name := w.model_name, stream := true }],
    match conn with
    | DlConnResult.raised e => [DlEvent.error e]
    | DlConnResult.ok lines => dlProcessLines stops lines 0)

/-- `ModelDownloadWorker.stop`: sets `self.is_running = False`. -/
def ModelDownloadWorker.stop (w : ModelDownloadWorker) : ModelDownloadWorker :=
  { w with is_running := false }

example : dlPercent 200 50 = 25 := by norm_num [dlPercent]

/-! ## GUI observer state (`gui/main_window.py`, `gui/dialogs.py`) -/

/-- A `MessageBubble` widget: its text and its `is_user` attribute. -/
structure MessageBubble where
  text : String
  is_user : Bool
  deriving DecidableEq, Repr

/-- One entry of `self.messages`: `{"role": ..., "content": ...}`. -/
structure ChatMessage where
  role : String
  content : String
  deriving DecidableEq, Repr

/-- One chat session: `{name, timestamp, messages, model}` (plus whatever
the dialogs add; these four fields are the persisted schema). -/
structure Session where
  name : String
  timestamp : String
  messages : List ChatMessage
  model : String
  deriving DecidableEq, Repr

/-- The JSON document `save_sessions` writes: `{'sessions': ...,
'current_index': ..., 'saved_at': datetime.now().isoformat()}`. -/
structure SessionsFile where
  sessions : List Session
  current_index : Int
  saved_at : String
  deriving DecidableEq, Repr

/-- The slice of `ChatbotGUI` state the claims concern.  `bubbles` is the
list of `MessageBubble` widgets in `chat_layout` in order; the layout also
ends with one stretch item, so `chat_layout.count() = bubbles.length + 1`
and `itemAt(count()-2)` is the last bubble. -/
structure ChatbotGUI where
  current_response : String
  bubbles : List MessageBubble
  messages : List ChatMessage
  chat_sessions : List Session
  current_session_index : Int
  deriving DecidableEq, Repr

/-- The state `ChatbotGUI.__init__` establishes for these fields. -/
def initGui : ChatbotGUI :=
  { current_response := "", bubbles := [], messages := [],
    chat_sessions := [], current_session_index := -1 }

/-- `ChatbotGUI.update_response(token)` — the `token_received` slot: append
the token to `self.current_response`; if the layout holds at least one
bubble (`count() > 1`) and the last one is an assistant bubble, remove it;
then insert a fresh assistant bubble with the whole accumulated text before
the stretch.  (`self.messages` is not touched here.) -/
def ChatbotGUI.update_response (g : ChatbotGUI) (token : String) : ChatbotGUI :=
  let cr := g.current_response ++ token
  let kept :=
    match g.bubbles.getLast? with
    | some b => if b.is_user then g.bubbles else g.bubbles.dropLast
    | none => g.bubbles
  { g with current_response := cr,
           bubbles := kept ++ [{ text := cr, is_user := false }] }

/-- `true` iff the last message of the list has role `"user"`
(`self.messages[-1]["role"] == "user"` guarded by `len(...) > 0`). -/
def lastIsUser (ms : List ChatMessage) : Bool :=
  match ms.getLast? with
  | some m => m.role == "user"
  | none => false

/-- `chat_sessions[i]['messages'] = ms` (identity when out of range, a
state Python only reaches by raising). -/
def setSessionMessages : List Session → Nat → List ChatMessage → List Session
  | [], _, _ => []
  | s :: rest, 0, ms => { s with messages := ms } :: rest
  | s :: rest, Nat.succ n, ms => s :: setSessionMessages rest n ms

/-- `ChatbotGUI.finish_response` — the `finished` slot: when the
accumulator is non-empty and the last message is the user's, append the
assistant message and mirror it into the current session (the
`save_sessions()` call writes the file, outside this state); then clear the
accumulator and re-enable the input widgets. -/
def ChatbotGUI.finish_response (g : ChatbotGUI) : ChatbotGUI :=
  if g.current_response != "" && lastIsUser g.messages then
    let msgs := g.messages ++ [{ role := "assistant", content := g.current_response }]
    let sessions :=
      if 0 ≤ g.current_session_index then
        setSessionMessages g.chat_sessions g.current_session_index.toNat msgs
      else g.chat_sessions
    { g with messages := msgs, chat_sessions := sessions, current_response := "" }
  else
    { g with current_response := "" }

/-- `ChatbotGUI.handle_error(error)` — the `error` slot: show a message box
(outside this state), clear the accumulator, re-enable the input widgets.
It removes no bubble and touches neither `self.messages` nor the
sessions. -/
def ChatbotGUI.handle_error (g : ChatbotGUI) (_e : Exn) : ChatbotGUI :=
  { g with current_response := "" }

/-- Dispatch of the worker's signals to their connected slots
(`send_message` connects `token_received → update_response`,
`finished → finish_response`, `error → handle_error`). -/
def ChatbotGUI.handleEvent (g : ChatbotGUI) : GenEvent → ChatbotGUI
  | GenEvent.token s => g.update_response s
  | GenEvent.finished => g.finish_response
  | GenEvent.error e => g.handle_error e

/-- Deliver a sequence of worker events to the GUI, in order. -/
def ChatbotGUI.runEvents (g : ChatbotGUI) (evs : List GenEvent) : ChatbotGUI :=
  evs.foldl ChatbotGUI.handleEvent g

/-- Deliver a sequence of token events only. -/
def ChatbotGUI.applyTokens (g : ChatbotGUI) (ts : List String) : ChatbotGUI :=
  ts.foldl ChatbotGUI.update_response g

/-- `ChatbotGUI.save_sessions`: the document written to the sessions
file (`now` stands for `datetime.now().isoformat()`). -/
def ChatbotGUI.save_sessions (g : ChatbotGUI) (now : String) : SessionsFile :=
  { sessions := g.chat_sessions, current_index := g.current_session_index,
    saved_at := now }

/-- `ChatbotGUI.load_saved_sessions`: with no file present, return at once;
otherwise set `self.chat_sessions = data.get('sessions', [])` and read
`saved_index = data.get('current_index', -1)` into a local that the method
never uses afterwards — `self.current_session_index` keeps its prior value
(it also populates the list widget, outside this state). -/
def ChatbotGUI.load_saved_sessions (g : ChatbotGUI) (file : Option SessionsFile) :
    ChatbotGUI :=
  match file with
  | none => g
  | some data => { g with chat_sessions := data.sessions }

/-- The settings dict of `ChatbotGUI`. -/
structure Settings where
  temperature : ℚ
  max_tokens : Int
  system_prompt : String
  deriving DecidableEq, Repr

/-- `self.settings` as initialised in `ChatbotGUI.__init__`. -/
def defaultSettings : Settings :=
  { temperature := 7/10, max_tokens := 2000,
    system_prompt := "You are a helpful AI assistant." }

/-- The value a `QSlider` with `setMinimum lo` / `setMaximum hi` can report:
Qt clamps any set value into `[lo, hi]`. -/
def sliderValue (lo hi v : Int) : Int :=
  max lo (min hi v)

/-- `SettingsDialog.save_settings` with `setup_ui`'s slider ranges: the
temperature slider spans 0..20 and is divided by 10 (`value() / 10`, float
division), the max-tokens slider spans 100..4000, the system prompt is the
text box's content. -/
def SettingsDialog.save_settings (tempSlider tokensSlider : Int)
    (sysText : String) : Settings :=
  { temperature := (sliderValue 0 20 tempSlider : ℚ) / 10,
    max_tokens := sliderValue 100 4000 tokensSlider,
    system_prompt := sysText }

/-- The settings states reachable at any `send_message`: the defaults,
possibly overwritten any number of times through the settings dialog. -/
inductive SettingsReachable : Settings → Prop
  | base : SettingsReachable defaultSettings
  | dialog (tempSlider tokensSlider : Int) (sysText : String) :
      SettingsReachable s →
      SettingsReachable (SettingsDialog.save_settings tempSlider tokensSlider sysText)

/-- The worker `ChatbotGUI.send_message` constructs:
`OllamaWorker(model, text, settings['system_prompt'],
settings['temperature'], settings['max_tokens'])` (it also resets
`self.current_response = ""` just before). -/
def ChatbotGUI.send_message_worker (s : Settings) (model text : String) :
    OllamaWorker :=
  OllamaWorker.init model text s.system_prompt s.temperature s.max_tokens

/-- Concatenation of a list of strings, in order. -/
def concatStrings : List String → String
  | [] => ""
  | s :: rest => s ++ concatStrings rest

/-! ## Helper lemmas -/

theorem linesOk_cons {l : Line} {rest : List Line} :
    linesOk (l :: rest) = true ↔
      (match l with | Line.fault _ => False | _ => True) ∧ linesOk rest = true := by
  cases l <;> simp [linesOk]

/-- With an empty stop schedule the loop never breaks on the flag: a
fault-free stream yields exactly its tokens, in order, then one
`finished`. -/
theorem processLines_wf (lines : List Line) (i : Nat)
    (h : linesOk lines = true) :
    processLines [] lines i =
      (genTokens lines).map GenEvent.token ++ [GenEvent.finished] := by
  induction lines generalizing i with
  | nil => simp [processLines, genTokens]
  | cons l rest ih =>
    rcases (linesOk_cons.mp h) with ⟨hl, hrest⟩
    cases l with
    | blank => simpa [processLines, genTokens, isRunningAt] using ih (i + 1) hrest
    | fault e => exact absurd hl (by simp)
    | record response dn =>
      cases dn with
      | false =>
        simp [processLines, genTokens, isRunningAt, ih (i + 1) hrest]
      | true =>
        simp [processLines, genTokens, isRunningAt]

/-- Lines after the first `done: true` record do not influence the emitted
events: the loop breaks there. -/
theorem processLines_done_prefix (pre : List Line) (r : Option String)
    (post : List Line) (i : Nat) :
    processLines [] (pre ++ Line.record r true :: post) i =
      processLines [] (pre ++ [Line.record r true]) i := by
  induction pre generalizing i with
  | nil => simp [processLines, isRunningAt]
  | cons l rest ih =>
    cases l with
    | blank => simp [processLines, isRunningAt, ih (i + 1)]
    | fault e => simp [processLines, isRunningAt]
    | record response dn =>
      cases dn with
      | false => simp [processLines, isRunningAt, ih (i + 1)]
      | true => simp [processLines, isRunningAt]

/-- The token texts, likewise, are decided by the prefix up to the first
`done: true` record. -/
theorem genTokens_done_prefix (pre : List Line) (r : Option String)
    (post : List Line) :
    genTokens (pre ++ Line.record r true :: post) =
      genTokens (pre ++ [Line.record r true]) := by
  induction pre with
  | nil => simp [genTokens]
  | cons l rest ih =>
    cases l with
    | blank => simp [genTokens, ih]
    | fault e => simp [genTokens]
    | record response dn =>
      cases dn with
      | false => simp [genTokens, ih]
      | true => simp [genTokens]

/-- A single `stop()` that takes effect at check `k` makes the run behave
exactly as if the stream had ended after its first `k` lines. -/
theorem processLines_stop_take (k : Nat) (lines : List Line) (i : Nat) :
    processLines [k] lines i = processLines [] (lines.take (k - i)) i := by
  induction lines generalizing i with
  | nil => simp [processLines]
  | cons l rest ih =>
    by_cases hik : i < k
    · have hk : k - i = (k - (i + 1)) + 1 := by omega
      cases l with
      | blank =>
        simp [processLines, isRunningAt, hik, hk, ih (i + 1)]
      | fault e =>
        simp [processLines, isRunningAt, hik, hk]
      | record response dn =>
        cases dn with
        | false => simp [processLines, isRunningAt, hik, hk, ih (i + 1)]
        | true => simp [processLines, isRunningAt, hik, hk]
    · have hk : k - i = 0 := by omega
      simp [processLines, isRunningAt, hik, hk]

/-- Two `stop()` calls effective at the same check behave as one. -/
theorem processLines_stop_twice (k : Nat) (lines : List Line) (i : Nat) :
    processLines [k, k] lines i = processLines [k] lines i := by
  induction lines generalizing i with
  | nil => simp [processLines]
  | cons l rest ih =>
    have hrun : isRunningAt [k, k] i = isRunningAt [k] i := by
      simp [isRunningAt, Bool.and_self]
    cases l with
    | blank => simp [processLines, hrun, ih (i + 1)]
    | fault e => simp [processLines, hrun]
    | record response dn => cases dn <;> simp [processLines, hrun, ih (i + 1)]

theorem concatStrings_cons (s : String) (rest : List String) :
    concatStrings (s :: rest) = s ++ concatStrings rest := rfl

/-- Folding `update_response` over a token list concatenates the tokens
onto the accumulator. -/
theorem applyTokens_current_response (g : ChatbotGUI) (ts : List String) :
    (g.applyTokens ts).current_response = g.current_response ++ concatStrings ts := by
  induction ts generalizing g with
  | nil => simp [ChatbotGUI.applyTokens, concatStrings]
  | cons t rest ih =>
    show ((g.update_response t).applyTokens rest).current_response = _
    rw [ih, ChatbotGUI.update_response]
    simp [concatStrings_cons, String.append_assoc]

/-- After a nonempty token burst the last widget of the chat layout is an
assistant bubble holding the whole accumulated text. -/
theorem applyTokens_last_bubble (g : ChatbotGUI) (t : String) (ts : List String) :
    (g.applyTokens (t :: ts)).bubbles.getLast? =
      some { text := g.current_response ++ concatStrings (t :: ts),
             is_user := false } := by
  induction ts generalizing g t with
  | nil =>
    show (g.update_response t).bubbles.getLast? = _
    simp [ChatbotGUI.update_response, concatStrings]
  | cons t' rest ih =>
    show ((g.update_response t).applyTokens (t' :: rest)).bubbles.getLast? = _
    rw [ih (g.update_response t) t']
    simp [ChatbotGUI.update_response, concatStrings_cons, String.append_assoc]

/-- Delivering tokens then an error is the fold of the slots. -/
theorem runEvents_tokens_error (g : ChatbotGUI) (ts : List String) (e : Exn) :
    g.runEvents (ts.map GenEvent.token ++ [GenEvent.error e]) =
      (g.applyTokens ts).handle_error e := by
  simp [ChatbotGUI.runEvents, ChatbotGUI.applyTokens, List.foldl_append,
    List.foldl_map, ChatbotGUI.handleEvent]

/-! ## Claims -/

/-- C1: on a well-formed NDJSON stream ending in a `done: true` record, the
generation loop emits one `token_received` per line carrying a `response`
field, in line order, skipping blank lines and every line after the first
`done: true` record, then exactly one `finished`; and folding
`update_response` over the tokens leaves the accumulator
`current_response` equal to their concatenation. -/
theorem generation_stream_events (pre post : List Line) (r : Option String)
    (g : ChatbotGUI) (hwf : linesOk pre = true) (hg : g.current_response = "") :
    processLines [] (pre ++ Line.record r true :: post) 0 =
      (genTokens (pre ++ Line.record r true :: post)).map GenEvent.token ++
        [GenEvent.finished]
    ∧ processLines [] (pre ++ Line.record r true :: post) 0 =
        processLines [] (pre ++ [Line.record r true]) 0
    ∧ (g.applyTokens (genTokens (pre ++ Line.record r true :: post))).current_response =
        concatStrings (genTokens (pre ++ Line.record r true :: post)) := by
  have hwf' : linesOk (pre ++ [Line.record r true]) = true := by
    simp only [linesOk, List.all_append] at hwf ⊢
    simp [hwf, List.all]
  have h2 := processLines_done_prefix pre r post 0
  refine ⟨?_, h2, ?_⟩
  · rw [h2, genTokens_done_prefix pre r post]
    exact processLines_wf _ 0 hwf'
  · rw [applyTokens_current_response, hg]
    simp

/-- C1 witness: the spec's scenario — lines
`{"response":"Hel","done":false}`, `{"response":"lo","done":false}`,
`{"done":true}` yield `Token("Hel"), Token("lo"), Completed` and
accumulator `"Hello"`. -/
theorem generation_stream_events_witness :
    linesOk [Line.record (some "Hel") false, Line.record (some "lo") false] = true
    ∧ initGui.current_response = ""
    ∧ processLines [] [Line.record (some "Hel") false, Line.record (some "lo") false,
        Line.record none true] 0 =
        [GenEvent.token "Hel", GenEvent.token "lo", GenEvent.finished]
    ∧ (initGui.applyTokens ["Hel", "lo"]).current_response = "Hello" := by
  refine ⟨by decide, rfl, ?_⟩
  have h := generation_stream_events
    [Line.record (some "Hel") false, Line.record (some "lo") false] [] none initGui
    (by decide) rfl
  have hts : genTokens ([Line.record (some "Hel") false, Line.record (some "lo") false]
      ++ Line.record none true :: []) = ["Hel", "lo"] := by decide
  constructor
  · have h1 := h.1
    rw [hts] at h1
    exact h1
  · have h3 := h.2.2
    rw [hts] at h3
    rw [h3]
    decide

/-- C2 counterexample: a `stop()` effective before the check of line 1
suppresses the second token (cancellation did take effect before a terminal
event, after line 0), yet the worker still emits `finished` — a `Completed`
event delivered after cancellation, and no cancelled signal exists on the
class.  This falsifies "no subsequent events of any kind". -/
theorem cancelled_run_still_emits_finished :
    processLines [1] [Line.record (some "a") false, Line.record (some "b") false,
      Line.record none true] 0 = [GenEvent.token "a", GenEvent.finished]
    ∧ GenEvent.finished ∈ processLines [1] [Line.record (some "a") false,
        Line.record (some "b") false, Line.record none true] 0 := by decide

/-- C2 amended: a `stop()` effective at check `k` makes the run behave as
if the stream ended after its first `k` lines — no `token_received` is
emitted for any later line — but the worker then still emits exactly one
`finished` (there is no cancelled signal; the GUI's `stop_generation` path,
not the worker, renders the stop). -/
theorem cancel_stops_token_stream (lines : List Line) (k : Nat)
    (h : linesOk (lines.take k) = true) :
    processLines [k] lines 0 =
      (genTokens (lines.take k)).map GenEvent.token ++ [GenEvent.finished] := by
  rw [processLines_stop_take k lines 0]
  simpa using processLines_wf (lines.take k) 0 h

/-- C2 amended, witness: cancelling before line 1 of a two-token stream
delivers `Token("a")` then one `finished`. -/
theorem cancel_stops_token_stream_witness :
    linesOk ([Line.record (some "a") false, Line.record (some "b") false].take 1) = true
    ∧ processLines [1] [Line.record (some "a") false, Line.record (some "b") false] 0 =
        [GenEvent.token "a", GenEvent.finished] := by
  have h := cancel_stops_token_stream
    [Line.record (some "a") false, Line.record (some "b") false] 1 (by decide)
  have h2 : (genTokens ([Line.record (some "a") false,
      Line.record (some "b") false].take 1)).map GenEvent.token ++ [GenEvent.finished] =
      [GenEvent.token "a", GenEvent.finished] := by decide
  exact ⟨by decide, h2 ▸ h⟩

/-- C3: a connection-refused exception raised by `requests.post` is caught
by the single `except` arm, which emits exactly one `error` event carrying
that exception, and no `token_received` and no `finished` is emitted. -/
theorem connection_refused_single_error (w : OllamaWorker) (e : Exn)
    (stops : List Nat) (h : e.kind = ExnKind.connectionRefused) :
    (w.run (ConnResult.raised e) stops).2 = [GenEvent.error e]
    ∧ (∀ s, GenEvent.token s ∉ (w.run (ConnResult.raised e) stops).2)
    ∧ GenEvent.finished ∉ (w.run (ConnResult.raised e) stops).2 := by
  refine ⟨rfl, ?_, ?_⟩ <;> simp [OllamaWorker.run]

/-- C3 witness: a concrete refused connection on a concrete worker. -/
theorem connection_refused_single_error_witness :
    (Exn.mk ExnKind.connectionRefused "Connection refused").kind =
      ExnKind.connectionRefused
    ∧ ((OllamaWorker.init "llama3" "hi" "" (7/10) 2000).run
        (ConnResult.raised (Exn.mk ExnKind.connectionRefused "Connection refused"))
        []).2 =
      [GenEvent.error (Exn.mk ExnKind.connectionRefused "Connection refused")] := by
  refine ⟨rfl, ?_⟩
  exact (connection_refused_single_error
    (OllamaWorker.init "llama3" "hi" "" (7/10) 2000)
    (Exn.mk ExnKind.connectionRefused "Connection refused") [] rfl).1

/-- C9 counterexample: a run on which `stop()` took effect twice delivers
the event `finished` — the `Completed` signal — as its single event; the
worker class has no cancelled signal (`GenEvent` enumerates its three
signals), so no "single Cancelled event" is ever delivered. -/
theorem double_cancel_delivers_finished :
    processLines [0, 0] [Line.record (some "a") false] 0 = [GenEvent.finished] := by
  decide

/-- C9 amended: `stop()` is idempotent — a second call (which merely
re-assigns `is_running = False` and cannot raise) leaves the worker state
and the whole emitted event sequence identical to a single call — though
the cancelled run's terminal event is `finished`, not a Cancelled. -/
theorem stop_idempotent :
    (∀ w : OllamaWorker, w.stop.stop = w.stop)
    ∧ (∀ w : ModelDownloadWorker, w.stop.stop = w.stop)
    ∧ ∀ (lines : List Line) (k i : Nat),
        processLines [k, k] lines i = processLines [k] lines i :=
  ⟨fun _ => rfl, fun _ => rfl, fun lines k i => processLines_stop_twice k lines i⟩

/-- C4 counterexample: a download worker built with the empty model name
still issues its one POST to `/api/pull` (one request, not zero), and on a
transport that accepts it and returns an empty stream the delivered event
is `finished`, not a validation `error`. -/
theorem empty_model_name_still_posts :
    ((ModelDownloadWorker.init "").run (DlConnResult.ok []) []).1.length = 1
    ∧ ((((ModelDownloadWorker.init "").run (DlConnResult.ok []) []).1.length == 0)
        = false)
    ∧ ((ModelDownloadWorker.init "").run (DlConnResult.ok []) []).2 =
        [DlEvent.finished] := by decide

/-- C4 amended: `ModelDownloadWorker.run` performs no validation of the
model name — for every name, the empty string included, it posts exactly
one request `{"name": model_name, "stream": true}` before reading the
response; no immediate validation failure exists. -/
theorem download_no_validation (name : String) (conn : DlConnResult)
    (stops : List Nat) :
    ((ModelDownloadWorker.init name).run conn stops).1 =
      [{ name := name, stream := true }] := rfl

theorem fmt1_zero : fmt1 0 = "0.0" := by
  have hr : round ((0:ℚ) * 10) = 0 := by norm_num
  rw [fmt1, hr]
  decide

theorem fmt1_25 : fmt1 25 = "25.0" := by
  have hr : round ((25:ℚ) * 10) = 250 := by norm_num [round_eq]
  rw [fmt1, hr]
  decide

/-- C5 counterexample: on a record with `total = 0` the percent is not
omitted — the loop emits `f"{status}: {percent:.1f}%"` with `percent = 0`,
i.e. `"downloading: 0.0%"`, not the bare status text. -/
theorem zero_total_percent_not_omitted :
    dlRecordMsg { status := some "downloading", total := some 0, completed := some 5 } =
      "downloading: 0.0%"
    ∧ ((dlRecordMsg ⟨some "downloading", some 0, some 5⟩ == "downloading") = false) := by
  have h : dlRecordMsg ⟨some "downloading", some 0, some 5⟩ =
      "downloading" ++ ": " ++ fmt1 0 ++ "%" := by
    simp [dlRecordMsg, dlPercent]
  rw [show ({ status := some "downloading", total := some 0, completed := some 5 } :
    DlRecord) = ⟨some "downloading", some 0, some 5⟩ from rfl, h, fmt1_zero]
  exact ⟨by decide, by decide⟩

/-- C5 amended: when both numeric fields are present the loop computes
`percent = completed/total*100` for `total > 0` (so `completed=50,
total=200` gives `25.0`) and emits `f"{status}: {percent:.1f}%"`; when
`total = 0` it emits the same format with `percent = 0` (`"...: 0.0%"`)
rather than omitting the percent; only when a field is missing is the bare
status text forwarded. -/
theorem download_percent_computation (status : String) (t c : Int) :
    (0 < t →
      dlRecordMsg { status := some status, total := some t, completed := some c } =
        status ++ ": " ++ fmt1 ((c : ℚ) / (t : ℚ) * 100) ++ "%")
    ∧ dlRecordMsg { status := some status, total := some 0, completed := some c } =
        status ++ ": 0.0%"
    ∧ dlRecordMsg { status := some status, total := none, completed := some c } =
        status := by
  refine ⟨fun ht => ?_, ?_, rfl⟩
  · simp [dlRecordMsg, dlPercent, ht]
  · have h : dlRecordMsg ⟨some status, some 0, some c⟩ =
        status ++ ": " ++ fmt1 0 ++ "%" := by
      simp [dlRecordMsg, dlPercent]
    rw [show ({ status := some status, total := some 0, completed := some c } :
      DlRecord) = ⟨some status, some 0, some c⟩ from rfl, h, fmt1_zero]
    simp [String.append_assoc]

/-- C5 amended, witness: `completed=50, total=200` yields percent `25.0` in
the emitted progress text. -/
theorem download_percent_computation_witness :
    (0:Int) < 200
    ∧ dlRecordMsg ⟨some "downloading", some 200, some 50⟩ =
        "downloading: 25.0%" := by
  have h := (download_percent_computation "downloading" 200 50).1 (by norm_num)
  have hq : ((50 : Int) : ℚ) / ((200 : Int) : ℚ) * 100 = 25 := by norm_num
  rw [hq, fmt1_25] at h
  exact ⟨by norm_num, by rw [h]; decide⟩

/-- C6: a generation that streams at least one token and then fails keeps
the streamed partial text visible: after the `error` slot runs, the last
chat-layout widget is still the assistant bubble holding the whole
accumulated text, and `handle_error` removed no bubble. -/
theorem failed_generation_keeps_streamed_text (g : ChatbotGUI) (t : String)
    (ts : List String) (e : Exn) (hg : g.current_response = "") :
    (g.runEvents ((t :: ts).map GenEvent.token ++ [GenEvent.error e])).bubbles.getLast? =
      some { text := concatStrings (t :: ts), is_user := false }
    ∧ (g.runEvents ((t :: ts).map GenEvent.token ++ [GenEvent.error e])).bubbles =
        (g.applyTokens (t :: ts)).bubbles := by
  rw [runEvents_tokens_error]
  refine ⟨?_, rfl⟩
  show (g.applyTokens (t :: ts)).bubbles.getLast? = _
  rw [applyTokens_last_bubble g t ts, hg]
  simp

/-- C6 witness: tokens `"par"`, `"tial"` then a transport error leave the
assistant bubble `"partial"` as the last widget. -/
theorem failed_generation_keeps_streamed_text_witness :
    initGui.current_response = ""
    ∧ (initGui.runEvents [GenEvent.token "par", GenEvent.token "tial",
        GenEvent.error (Exn.mk ExnKind.transport "boom")]).bubbles.getLast? =
        some { text := "partial", is_user := false } := by
  refine ⟨rfl, ?_⟩
  have h := (failed_generation_keeps_streamed_text initGui "par" ["tial"]
    (Exn.mk ExnKind.transport "boom") rfl).1
  have hc : concatStrings ["par", "tial"] = "partial" := by decide
  rw [hc] at h
  exact h

/-- C7 counterexample: save from a GUI whose current session index is `0`,
load into a fresh GUI — the loaded state's `current_session_index` is still
`-1`: `load_saved_sessions` reads the file's `current_index` into the local
`saved_index` and never applies it. -/
theorem load_does_not_restore_current_index :
    (initGui.load_saved_sessions (some
      ((⟨"", [], [], [⟨"chat", "t0", [⟨"user", "hi"⟩], "llama"⟩], 0⟩ :
        ChatbotGUI).save_sessions "t1"))).current_session_index = -1
    ∧ ((⟨"", [], [], [⟨"chat", "t0", [⟨"user", "hi"⟩], "llama"⟩], 0⟩ :
        ChatbotGUI).save_sessions "t1").current_index = 0
    ∧ (((-1 : Int) == 0) = false) := by decide

/-- C7 amended: a save/load round trip recovers the sessions list exactly,
and the file does hold the saved `current_index`; but loading leaves the
in-memory `current_session_index` at whatever value the loading GUI already
had (`-1` on startup) — the saved index is read and dropped. -/
theorem sessions_roundtrip (g fresh : ChatbotGUI) (now : String) :
    (fresh.load_saved_sessions (some (g.save_sessions now))).chat_sessions =
      g.chat_sessions
    ∧ (g.save_sessions now).current_index = g.current_session_index
    ∧ (fresh.load_saved_sessions (some (g.save_sessions now))).current_session_index =
        fresh.current_session_index :=
  ⟨rfl, rfl, rfl⟩

/-- C8: every worker `send_message` builds carries a temperature in `[0, 2]`
and a positive `max_tokens`: true of the default settings `(0.7, 2000)` and
preserved by every pass through the settings dialog, whose sliders confine
the temperature to `0..20` tenths and the token count to `100..4000`. -/
theorem request_params_in_range (s : Settings) (h : SettingsReachable s)
    (model text : String) :
    0 ≤ (ChatbotGUI.send_message_worker s model text).temp
    ∧ (ChatbotGUI.send_message_worker s model text).temp ≤ 2
    ∧ 0 < (ChatbotGUI.send_message_worker s model text).max_tokens := by
  suffices hs : 0 ≤ s.temperature ∧ s.temperature ≤ 2 ∧ 0 < s.max_tokens from hs
  induction h with
  | base => refine ⟨by norm_num [defaultSettings], by norm_num [defaultSettings], by norm_num [defaultSettings]⟩
  | dialog tempSlider tokensSlider sysText hprev ih =>
    refine ⟨?_, ?_, ?_⟩
    · show (0:ℚ) ≤ (sliderValue 0 20 tempSlider : ℚ) / 10
      have h1 : (0:Int) ≤ sliderValue 0 20 tempSlider := le_max_left _ _
      have h1q : (0:ℚ) ≤ (sliderValue 0 20 tempSlider : ℚ) := by exact_mod_cast h1
      positivity
    · show (sliderValue 0 20 tempSlider : ℚ) / 10 ≤ 2
      have h2 : sliderValue 0 20 tempSlider ≤ 20 :=
        max_le (by norm_num) (min_le_left _ _)
      have h2q : (sliderValue 0 20 tempSlider : ℚ) ≤ 20 := by exact_mod_cast h2
      linarith
    · show (0:Int) < sliderValue 100 4000 tokensSlider
      have h3 : (100:Int) ≤ sliderValue 100 4000 tokensSlider := le_max_left _ _
      omega

/-- C8 witness: the invariant at the default settings. -/
theorem request_params_in_range_witness :
    SettingsReachable defaultSettings
    ∧ 0 ≤ (ChatbotGUI.send_message_worker defaultSettings "llama3" "hi").temp
    ∧ (ChatbotGUI.send_message_worker defaultSettings "llama3" "hi").temp ≤ 2
    ∧ 0 < (ChatbotGUI.send_message_worker defaultSettings "llama3" "hi").max_tokens :=
  ⟨SettingsReachable.base,
    request_params_in_range defaultSettings SettingsReachable.base "llama3" "hi"⟩

/-- C10: the body posted to `/api/generate` has exactly the keys `model`,
`prompt`, `stream` (always `true`), `options` (with `temperature` and
`num_predict` from the constructor), plus `system` iff the constructor's
`system_prompt` is non-empty — an empty system prompt leaves the key
absent. -/
theorem generate_payload_shape (w : OllamaWorker) (conn : ConnResult)
    (stops : List Nat) :
    (w.run conn stops).1 = [w.payload]
    ∧ w.payload.stream = true
    ∧ w.payload.model = w.model
    ∧ w.payload.prompt = w.prompt
    ∧ w.payload.options = { temperature := w.temp, num_predict := w.max_tokens }
    ∧ w.payload.keys =
        ["model", "prompt", "stream", "options"] ++
          (if w.system_prompt = "" then [] else ["system"])
    ∧ (w.payload.system = some w.system_prompt ↔ ¬ w.system_prompt = "")
    ∧ (w.system_prompt = "" → w.payload.system = none) := by
  refine ⟨rfl, rfl, rfl, rfl, rfl, ?_, ?_, ?_⟩
  · by_cases h : w.system_prompt = "" <;>
      simp [GenPayload.keys, OllamaWorker.payload, h]
  · by_cases h : w.system_prompt = "" <;> simp [OllamaWorker.payload, h]
  · intro h
    simp [OllamaWorker.payload, h]

/-- C10 witness: a worker with a non-empty system prompt and one with an
empty system prompt, on concrete arguments. -/
theorem generate_payload_shape_witness :
    (OllamaWorker.init "llama3" "hi" "be brief" (7/10) 2000).payload.keys =
      ["model", "prompt", "stream", "options", "system"]
    ∧ (OllamaWorker.init "llama3" "hi" "" (7/10) 2000).payload.system = none := by
  constructor
  · have h := (generate_payload_shape
      (OllamaWorker.init "llama3" "hi" "be brief" (7/10) 2000)
      (ConnResult.ok []) []).2.2.2.2.2.1
    rw [h]
    decide
  · exact (generate_payload_shape (OllamaWorker.init "llama3" "hi" "" (7/10) 2000)
      (ConnResult.ok []) []).2.2.2.2.2.2.2 rfl
